import Mathlib

/-!
Shallow embedding of the core of the fleet repository, covering:

* `server/mdm/apple/commander.go` — the MDM command envelope builder,
  per-device command queue and APNS push notifier (`MDMAppleCommander`);
* `orbit/pkg/installer` (the installer `Runner` found in the source tree) —
  the agent-side task runner that evaluates a precondition, fetches scripts
  and an installer artifact, executes install / post-install scripts and
  reports results;
* the orbit client's configuration receiver fan-out (its implementation is
  known here only through its tests, so it is modelled from the spec).

External collaborators (storage, pusher, osquery, the orbit server API,
the filesystem and process execution) are modelled as oracle functions
packaged in an environment record; the observable side effects of one
invocation (persisted commands, push calls, script executions, submitted
results, removed directories) are collected in an explicit trace/state.
-/

namespace Fleet

/-! ### Go errors

Errors are modelled as an inductive type.  `ctxWrap m e` is
`ctxerr.Wrap(ctx, e, m)` applied to a non-nil `e`; `fmtWrap m e` is
`fmt.Errorf(m + ": %w", e)`; `apnsDelivery` is the `APNSDeliveryError`
struct of commander.go (its `Err` field is the outer push error, an
`Option String` here).  `asAPNSDeliveryError` plays the role of
`errors.As(err, *APNSDeliveryError)`: it unwraps wrapping layers and
returns the `FailedUUIDs` and `Err` fields when the underlying error is an
`APNSDeliveryError`. -/

inductive GoError where
  | msg : String → GoError
  | apnsDelivery : List String → Option String → GoError
  | ctxWrap : String → GoError → GoError
  | fmtWrap : String → GoError → GoError
deriving DecidableEq, Repr

def asAPNSDeliveryError : GoError → Option (List String × Option String)
  | GoError.apnsDelivery failed cause => some (failed, cause)
  | GoError.ctxWrap _ e => asAPNSDeliveryError e
  | GoError.fmtWrap _ e => asAPNSDeliveryError e
  | GoError.msg _ => none

/-! ### Commander data model (`server/mdm/apple/commander.go`) -/

/-- Model of the result of `mdm.DecodeCommand` on a raw plist: an opaque structured
command retaining its `CommandUUID` and raw bytes. -/
structure MDMCommand where
  commandUUID : String
  raw : String
deriving DecidableEq, Repr

/-- One per-target persisted entry produced by `storage.EnqueueCommand`. -/
structure EnqRecord where
  hostUUID : String
  cmd : MDMCommand
  userID : Option Nat
  fleetOwned : Bool
deriving DecidableEq, Repr

/-- One persisted entry produced by `storage.EnqueueDeviceLockCommand`
(which takes the generated pin as an argument, recorded as `some pin`) or
`storage.EnqueueDeviceWipeCommand` (whose Go signature has no pin
parameter, recorded as `none`). -/
structure DeviceCmdRecord where
  hostUUID : String
  cmd : MDMCommand
  pin : Option String
deriving DecidableEq, Repr

/-- Result of `pusher.Push`: per-identifier responses (each with an
optional error, the `response.Err` field) and an overall error. -/
structure PushResult where
  responses : List (String × Option String)
  err : Option String
deriving DecidableEq, Repr

/-- Observable server-side state: commands persisted by the storage layer
and the sequence of `Push` fan-out calls made to the pusher. -/
structure CommanderState where
  enqueued : List EnqRecord
  deviceCmds : List DeviceCmdRecord
  pushCalls : List (List String)
deriving DecidableEq, Repr

def CommanderState.empty : CommanderState := ⟨[], [], []⟩

/-- Behaviour of the commander's injected dependencies for one invocation:
`mdm.DecodeCommand`, the storage enqueue calls (their error outcome), the
pusher, `storage.GetProfileUserID`, `plist.Marshal` of the embedded
manifest payload, and the randomness consumed by `GenerateRandomPin`. -/
structure CommanderEnv where
  decode : String → Except String MDMCommand
  enqueueResult : List String → MDMCommand → Option String
  lockEnqueueResult : String → MDMCommand → String → Option String
  wipeEnqueueResult : String → MDMCommand → Option String
  push : List String → PushResult
  getProfileUserID : String → Except String Nat
  marshalEmbedded : String → String → Except String String
  randPin : Nat

/-! `GenerateRandomPin` is called by `DeviceLock` and `EraseDevice` but its
definition is not under `src/`. -/

def pinDigits : Nat → Nat → List Char
  | 0, _ => []
  | k + 1, v => pinDigits k (v / 10) ++ [Char.ofNat (48 + v % 10)]

/-- Modelled from the spec: `GenerateRandomPin` is referenced by
`DeviceLock`/`EraseDevice` but not defined under `src/`.  Spec §3
(DeviceLockSecret): "a 6-digit numeric string ... exactly 6 characters,
digits only, leading zeros preserved as a string (not a numeric type)".
The randomness source is modelled as the natural number `rand` supplied by
the environment, reduced to `n` decimal digits most-significant first. -/
def GenerateRandomPin (rand : Nat) (n : Nat) : String :=
  String.mk (pinDigits n rand)

/-! ### Raw plist templates

The `fmt.Sprintf` templates of commander.go, as string concatenation. -/

def deviceLockRaw (uuid pin : String) : String :=
  "<?xml version=\"1.0\" encoding=\"UTF-8\"?>\n" ++
  "<!DOCTYPE plist PUBLIC \"-//Apple//DTD PLIST 1.0//EN\" \"http://www.apple.com/DTDs/PropertyList-1.0.dtd\">\n" ++
  "<plist version=\"1.0\">\n  <dict>\n    <key>CommandUUID</key>\n    <string>" ++
  uuid ++
  "</string>\n    <key>Command</key>\n    <dict>\n      <key>RequestType</key>\n      <string>DeviceLock</string>\n      <key>PIN</key>\n      <string>" ++
  pin ++
  "</string>\n    </dict>\n  </dict>\n</plist>"

def eraseDeviceRaw (uuid pin : String) : String :=
  "<?xml version=\"1.0\" encoding=\"UTF-8\"?>\n" ++
  "<!DOCTYPE plist PUBLIC \"-//Apple//DTD PLIST 1.0//EN\" \"http://www.apple.com/DTDs/PropertyList-1.0.dtd\">\n" ++
  "<plist version=\"1.0\">\n  <dict>\n    <key>CommandUUID</key>\n    <string>" ++
  uuid ++
  "</string>\n    <key>Command</key>\n    <dict>\n      <key>RequestType</key>\n      <string>EraseDevice</string>\n      <key>PIN</key>\n      <string>" ++
  pin ++
  "</string>\n      <key>ObliterationBehavior</key>\n      <string>Default</string>\n    </dict>\n  </dict>\n</plist>"

def installEnterpriseApplicationRaw (manifestURL uuid : String) : String :=
  "<?xml version=\"1.0\" encoding=\"UTF-8\"?>\n" ++
  "<!DOCTYPE plist PUBLIC \"-//Apple//DTD PLIST 1.0//EN\" \"http://www.apple.com/DTDs/PropertyList-1.0.dtd\">\n" ++
  "<plist version=\"1.0\">\n  <dict>\n    <key>Command</key>\n    <dict>\n      <key>ManifestURL</key>\n      <string>" ++
  manifestURL ++
  "</string>\n      <key>RequestType</key>\n      <string>InstallEnterpriseApplication</string>\n    </dict>\n\n    <key>CommandUUID</key>\n    <string>" ++
  uuid ++
  "</string>\n  </dict>\n</plist>"

def accountConfigurationRaw (fullName userName uuid : String) : String :=
  "<?xml version=\"1.0\" encoding=\"UTF-8\"?>\n" ++
  "<!DOCTYPE plist PUBLIC \"-//Apple//DTD PLIST 1.0//EN\" \"http://www.apple.com/DTDs/PropertyList-1.0.dtd\">\n" ++
  "<plist version=\"1.0\">\n  <dict>\n    <key>Command</key>\n    <dict>\n      <key>PrimaryAccountFullName</key>\n      <string>" ++
  fullName ++
  "</string>\n      <key>PrimaryAccountUserName</key>\n      <string>" ++
  userName ++
  "</string>\n      <key>LockPrimaryAccountInfo</key>\n      <true />\n      <key>RequestType</key>\n      <string>AccountConfiguration</string>\n    </dict>\n\n    <key>CommandUUID</key>\n    <string>" ++
  uuid ++
  "</string>\n  </dict>\n</plist>"

/-! ### Commander operations -/

/-- Identifiers whose per-response push error is non-nil: the `failed`
list computed by the loop in `sendNotifications`. -/
def pushFailedUUIDs (pr : PushResult) : List String :=
  (pr.responses.filter (fun p => p.2.isSome)).map (fun p => p.1)

/-- Model of `sendNotifications` of commander.go.  Calls `pusher.Push` on the host
UUIDs (recorded in `pushCalls`); an overall push error is returned wrapped
as an ordinary error.  Otherwise the identifiers whose per-response error
is non-nil are collected; when that list is non-empty an
`APNSDeliveryError{FailedUUIDs: failed, Err: err}` is returned — `err`
being the outer push error, which is nil on this branch. -/
def sendNotifications (env : CommanderEnv) (st : CommanderState)
    (hostUUIDs : List String) : Option GoError × CommanderState :=
  let st := { st with pushCalls := st.pushCalls ++ [hostUUIDs] }
  let pr := env.push hostUUIDs
  match pr.err with
  | some e => (some (GoError.ctxWrap "commander push" (GoError.msg e)), st)
  | none =>
    let failed := pushFailedUUIDs pr
    if failed.length > 0 then
      (some (GoError.apnsDelivery failed none), st)
    else
      (none, st)

/-- Model of `EnqueueCommand` of commander.go: decode the raw command, persist it
against every host UUID through the storage layer, then send the push
notification fan-out. -/
def EnqueueCommand (env : CommanderEnv) (st : CommanderState)
    (hostUUIDs : List String) (rawCommand : String)
    (userID : Option Nat) (fleetOwned : Bool) : Option GoError × CommanderState :=
  match env.decode rawCommand with
  | Except.error e => (some (GoError.ctxWrap "decoding command" (GoError.msg e)), st)
  | Except.ok cmd =>
    match env.enqueueResult hostUUIDs cmd with
    | some e => (some (GoError.ctxWrap "enqueuing command" (GoError.msg e)), st)
    | none =>
      let st := { st with
        enqueued := st.enqueued ++ hostUUIDs.map (fun h => ⟨h, cmd, userID, fleetOwned⟩) }
      match sendNotifications env st hostUUIDs with
      | (some e, st) => (some (GoError.ctxWrap "sending notifications" e), st)
      | (none, st) => (none, st)

/-- Model of `getProfileCreator` of commander.go: look up the profile's originating
user id; a zero id means the command is fleet-initiated (no user id). -/
def getProfileCreator (env : CommanderEnv) (profIdent : String) :
    Except String (Option Nat × Bool) :=
  match env.getProfileUserID profIdent with
  | Except.error e => Except.error e
  | Except.ok uid =>
    if uid = 0 then Except.ok (none, true) else Except.ok (some uid, false)

/-- Model of `DeviceLock` of commander.go: generate a pin, render the DeviceLock
plist, decode it, persist it via `storage.EnqueueDeviceLockCommand`
(which receives the pin), then push. -/
def DeviceLock (env : CommanderEnv) (st : CommanderState)
    (hostUUID : String) (uuid : String) : Option GoError × CommanderState :=
  let pin := GenerateRandomPin env.randPin 6
  let raw := deviceLockRaw uuid pin
  match env.decode raw with
  | Except.error e => (some (GoError.ctxWrap "decoding command" (GoError.msg e)), st)
  | Except.ok cmd =>
    match env.lockEnqueueResult hostUUID cmd pin with
    | some e => (some (GoError.ctxWrap "enqueuing for DeviceLock" (GoError.msg e)), st)
    | none =>
      let st := { st with deviceCmds := st.deviceCmds ++ [⟨hostUUID, cmd, some pin⟩] }
      match sendNotifications env st [hostUUID] with
      | (some e, st) =>
        (some (GoError.ctxWrap "sending notifications for DeviceLock" e), st)
      | (none, st) => (none, st)

/-- Model of `EraseDevice` of commander.go: generate a pin, render the EraseDevice
plist (the pin is embedded in the payload), decode it, persist it via
`storage.EnqueueDeviceWipeCommand` — whose call receives only the host and
the command, not the pin — then push. -/
def EraseDevice (env : CommanderEnv) (st : CommanderState)
    (hostUUID : String) (uuid : String) : Option GoError × CommanderState :=
  let pin := GenerateRandomPin env.randPin 6
  let raw := eraseDeviceRaw uuid pin
  match env.decode raw with
  | Except.error e => (some (GoError.ctxWrap "decoding command" (GoError.msg e)), st)
  | Except.ok cmd =>
    match env.wipeEnqueueResult hostUUID cmd with
    | some e => (some (GoError.ctxWrap "enqueuing for DeviceWipe" (GoError.msg e)), st)
    | none =>
      let st := { st with deviceCmds := st.deviceCmds ++ [⟨hostUUID, cmd, none⟩] }
      match sendNotifications env st [hostUUID] with
      | (some e, st) =>
        (some (GoError.ctxWrap "sending notifications for DeviceWipe" e), st)
      | (none, st) => (none, st)

/-- Model of `InstallEnterpriseApplication` of commander.go: renders the manifest
URL variant and enqueues it with `userID = nil, fleetOwned = true`. -/
def InstallEnterpriseApplication (env : CommanderEnv) (st : CommanderState)
    (hostUUIDs : List String) (uuid manifestURL : String) :
    Option GoError × CommanderState :=
  EnqueueCommand env st hostUUIDs (installEnterpriseApplicationRaw manifestURL uuid)
    none true

/-- Model of `InstallEnterpriseApplicationWithEmbeddedManifest` of commander.go:
marshals a `commandPayload` with the embedded manifest and enqueues the
result with `userID = nil, fleetOwned = false` (the literal arguments of
the Go call `svc.EnqueueCommand(ctx, hostUUIDs, string(raw), nil, false)`). -/
def InstallEnterpriseApplicationWithEmbeddedManifest (env : CommanderEnv)
    (st : CommanderState) (hostUUIDs : List String) (uuid manifest : String) :
    Option GoError × CommanderState :=
  match env.marshalEmbedded uuid manifest with
  | Except.error e =>
    (some (GoError.fmtWrap "marshal command payload plist" (GoError.msg e)), st)
  | Except.ok raw => EnqueueCommand env st hostUUIDs raw none false

/-- Model of `AccountConfiguration` of commander.go: renders the account
configuration variant and enqueues it with `userID = nil,
fleetOwned = true`. -/
def AccountConfiguration (env : CommanderEnv) (st : CommanderState)
    (hostUUIDs : List String) (uuid fullName userName : String) :
    Option GoError × CommanderState :=
  EnqueueCommand env st hostUUIDs (accountConfigurationRaw fullName userName uuid)
    none true

/-- Attribution invariant of the data model: exactly one of
user-attributed (`userID` present) and system-originated (`fleetOwned`)
holds for a persisted command. -/
def attributionExclusive (r : EnqRecord) : Bool :=
  (r.userID.isSome && !r.fleetOwned) || (r.userID.isNone && r.fleetOwned)

/-! ### Installer task runner (`orbit/pkg/installer`) -/

/-- Status of an osquery extension response. -/
structure QueryStatus where
  code : Int
  message : String
deriving DecidableEq, Repr

/-- Model of `osquery_gen.ExtensionResponse`: a status plus the result rows. -/
structure OsqueryResponse where
  status : QueryStatus
  response : List (List (String × String))
deriving DecidableEq, Repr

/-- Model of `fleet.HostScriptResult` as fetched by `GetHostScript`. -/
structure HostScriptResult where
  id : Nat
  executionID : String
  scriptContents : String
deriving DecidableEq, Repr

/-- Model of `fleet.HostScriptResultPayload` as submitted by
`SaveHostScriptResult`. -/
structure HostScriptResultPayload where
  executionID : String
  output : String
  runtime : Nat
  exitCode : Int
deriving DecidableEq, Repr

/-- Model of `fleet.OrbitSoftwareInstaller`: the installation job consumed by
`InstallSoftware`. -/
structure OrbitSoftwareInstaller where
  preInstallCondition : String
  installScript : String
  postInstallScript : String
  softwareId : String
deriving DecidableEq, Repr

/-- Behaviour of the runner's injected dependencies for one job:
`OsqueryClient.Query`, `OrbitClient.GetHostScript` / `GetInstaller` /
`SaveHostScriptResult`, `tempDirFn`, `os.WriteFile` and `execCmdFn`.
`execCmd` returns (combined output, exit code, wall-clock seconds,
optional execution error). -/
structure RunnerEnv where
  query : String → Except String OsqueryResponse
  getHostScript : String → Except String HostScriptResult
  getInstaller : String → String → Except String String
  tempDir : String
  writeFile : String → String → Option String
  execCmd : String → String × Int × Nat × Option String
  saveResult : HostScriptResultPayload → Option String

/-- Observable side effects of one job: scripts fetched, installer
fetches, files written, scripts executed, results submitted, directories
removed. -/
structure RunnerTrace where
  scriptFetches : List String
  installerFetches : List (String × String)
  writes : List (String × String)
  execs : List String
  saved : List HostScriptResultPayload
  removed : List String
deriving DecidableEq, Repr

def RunnerTrace.empty : RunnerTrace := ⟨[], [], [], [], [], []⟩

/-- Model of `preConditionCheck` of the runner: run the precondition query; a query
transport error or a non-zero status is a hard error; a non-empty result
set means proceed, an empty one means skip. -/
def preConditionCheck (env : RunnerEnv) (query : String) : Except GoError Bool :=
  match env.query query with
  | Except.error e => Except.error (GoError.ctxWrap "precondition check" (GoError.msg e))
  | Except.ok res =>
    if res.status.code ≠ 0 then
      Except.error (GoError.msg ("non-zero query status: " ++ toString res.status.code ++
        " \"" ++ res.status.message ++ "\""))
    else if res.response.length > 0 then
      Except.ok true
    else
      Except.ok false

/-- Model of `runInstallerScript` of the runner: write the script body to
`installerPath/<script.ID>`, execute it, and submit a
`HostScriptResultPayload` with the captured output, runtime and exit
code.  In the Go source the error returned by `execCmdFn` is bound to
`err` and then reassigned by the `SaveHostScriptResult` call before it is
ever inspected, so an execution-launch error never surfaces; the model
mirrors this by discarding the fourth component of `execCmd`. -/
def runInstallerScript (env : RunnerEnv) (tr : RunnerTrace)
    (script : HostScriptResult) (installerPath : String) :
    Option GoError × RunnerTrace :=
  let scriptPath := installerPath ++ "/" ++ toString script.id
  let tr := { tr with writes := tr.writes ++ [(scriptPath, script.scriptContents)] }
  match env.writeFile scriptPath script.scriptContents with
  | some e => (some (GoError.ctxWrap "writing script" (GoError.msg e)), tr)
  | none =>
    let r := env.execCmd scriptPath
    let output := r.1
    let exitCode := r.2.1
    let durationSecs := r.2.2.1
    let tr := { tr with execs := tr.execs ++ [scriptPath] }
    let payload : HostScriptResultPayload :=
      ⟨script.executionID, output, durationSecs, exitCode⟩
    let tr := { tr with saved := tr.saved ++ [payload] }
    match env.saveResult payload with
    | some e => (some (GoError.fmtWrap "save script result" (GoError.msg e)), tr)
    | none => (none, tr)

/-- Model of `InstallSoftware` of the runner: precondition check (hard error
aborts; an unmet condition returns nil with nothing executed), fetch both
scripts, obtain the temp dir, fetch the installer artifact, then — with
the deferred `removeAll(tmpDir)` registered only at this point — run the
install script followed by the post-install script, removing `tmpDir` on
every path that reaches past the installer fetch. -/
def InstallSoftware (env : RunnerEnv) (installer : OrbitSoftwareInstaller) :
    Option GoError × RunnerTrace :=
  let tr := RunnerTrace.empty
  match preConditionCheck env installer.preInstallCondition with
  | Except.error e => (some e, tr)
  | Except.ok false => (none, tr)
  | Except.ok true =>
    let tr := { tr with scriptFetches := tr.scriptFetches ++ [installer.installScript] }
    match env.getHostScript installer.installScript with
    | Except.error e => (some (GoError.msg e), tr)
    | Except.ok installScript =>
      let tr := { tr with
        scriptFetches := tr.scriptFetches ++ [installer.postInstallScript] }
      match env.getHostScript installer.postInstallScript with
      | Except.error e => (some (GoError.msg e), tr)
      | Except.ok postInstallScript =>
        let tmpDir := env.tempDir
        let tr := { tr with
          installerFetches := tr.installerFetches ++ [(installer.softwareId, tmpDir)] }
        match env.getInstaller installer.softwareId tmpDir with
        | Except.error e => (some (GoError.msg e), tr)
        | Except.ok installerPath =>
          let step :=
            match runInstallerScript env tr installScript installerPath with
            | (some e, tr) => (some e, tr)
            | (none, tr) => runInstallerScript env tr postInstallScript installerPath
          (step.1, { step.2 with removed := step.2.removed ++ [tmpDir] })

/-- Control-flow predicate derived from `InstallSoftware`: the job reaches
the point where the installer artifact has been fetched successfully
(which is where the Go source registers the deferred `removeAll`). -/
def installerFetched (env : RunnerEnv) (installer : OrbitSoftwareInstaller) : Bool :=
  match preConditionCheck env installer.preInstallCondition with
  | Except.error _ => false
  | Except.ok false => false
  | Except.ok true =>
    match env.getHostScript installer.installScript with
    | Except.error _ => false
    | Except.ok _ =>
      match env.getHostScript installer.postInstallScript with
      | Except.error _ => false
      | Except.ok _ =>
        match env.getInstaller installer.softwareId env.tempDir with
        | Except.error _ => false
        | Except.ok _ => true

/-! ### Configuration receiver fan-out (orbit client)

The implementation of `RegisterConfigReceiver` / `RunConfigReceivers` is
known here only through `server/service/orbit_client_test.go`; the
operations themselves are modelled from the spec. -/

/-- A registered receiver: a callback from the configuration to an
optional error (`Run(cfg *fleet.OrbitConfig) error`).  `C` is the
configuration type, `E` the error type. -/
def ConfigReceiver (C E : Type) : Type := C → Option E

/-- Modelled from the spec: `RegisterConfigReceiver` is not under `src/`
(only its test is).  Spec §4.4: "appends `r` to the ordered registration
list; no de-duplication, no removal API". -/
def RegisterConfigReceiver {C E : Type} (receivers : List (ConfigReceiver C E))
    (r : ConfigReceiver C E) : List (ConfigReceiver C E) :=
  receivers ++ [r]

/-- Modelled from the spec: `RunConfigReceivers` is not under `src/` (only
its test is).  Spec §4.4: "invokes every registered receiver, in
registration order, with the same configuration value; a receiver's
failure is recorded but does not prevent subsequent receivers from
running ... nil if all receivers succeeded, otherwise an aggregate error
that preserves every individual failure".  The first component is the
per-receiver outcome list (every receiver applied, in order, to the same
`cfg`); the second is the aggregate error, `none` when no receiver
failed, otherwise the list of every individual failure (membership in
that list is the model of `errors.Is`). -/
def RunConfigReceivers {C E : Type} (receivers : List (ConfigReceiver C E))
    (cfg : C) : List (Option E) × Option (List E) :=
  let results := receivers.map (fun r => r cfg)
  let errs := results.filterMap id
  (results, if errs.isEmpty then none else some errs)

/-! ### Helper lemmas -/

lemma sendNotifications_pushCalls (env : CommanderEnv) (st : CommanderState)
    (hostUUIDs : List String) :
    (sendNotifications env st hostUUIDs).2.pushCalls = st.pushCalls ++ [hostUUIDs] := by
  simp only [sendNotifications]
  cases h : (env.push hostUUIDs).err with
  | some e => simp [h]
  | none => simp only [h]; split <;> simp

lemma sendNotifications_enqueued (env : CommanderEnv) (st : CommanderState)
    (hostUUIDs : List String) :
    (sendNotifications env st hostUUIDs).2.enqueued = st.enqueued := by
  simp only [sendNotifications]
  cases h : (env.push hostUUIDs).err with
  | some e => simp [h]
  | none => simp only [h]; split <;> simp

lemma sendNotifications_deviceCmds (env : CommanderEnv) (st : CommanderState)
    (hostUUIDs : List String) :
    (sendNotifications env st hostUUIDs).2.deviceCmds = st.deviceCmds := by
  simp only [sendNotifications]
  cases h : (env.push hostUUIDs).err with
  | some e => simp [h]
  | none => simp only [h]; split <;> simp

lemma sendNotifications_outer_err (env : CommanderEnv) (st : CommanderState)
    (hostUUIDs : List String) (e : String) (h : (env.push hostUUIDs).err = some e) :
    (sendNotifications env st hostUUIDs).1 =
      some (GoError.ctxWrap "commander push" (GoError.msg e)) := by
  simp [sendNotifications, h]

lemma sendNotifications_partial (env : CommanderEnv) (st : CommanderState)
    (hostUUIDs : List String) (h : (env.push hostUUIDs).err = none)
    (hfail : pushFailedUUIDs (env.push hostUUIDs) ≠ []) :
    (sendNotifications env st hostUUIDs).1 =
      some (GoError.apnsDelivery (pushFailedUUIDs (env.push hostUUIDs)) none) := by
  have hlen : 0 < (pushFailedUUIDs (env.push hostUUIDs)).length :=
    List.length_pos.mpr hfail
  simp [sendNotifications, h, hlen]

lemma sendNotifications_all_ok (env : CommanderEnv) (st : CommanderState)
    (hostUUIDs : List String) (h : (env.push hostUUIDs).err = none)
    (hfail : pushFailedUUIDs (env.push hostUUIDs) = []) :
    (sendNotifications env st hostUUIDs).1 = none := by
  simp [sendNotifications, h, hfail]

lemma runInstallerScript_removed (env : RunnerEnv) (tr : RunnerTrace)
    (script : HostScriptResult) (installerPath : String) :
    ((runInstallerScript env tr script installerPath).2).removed = tr.removed := by
  simp only [runInstallerScript]
  cases hw : env.writeFile (installerPath ++ "/" ++ toString script.id)
      script.scriptContents with
  | some e => simp [hw]
  | none => simp only [hw]; split <;> simp

lemma pinDigits_length (n v : Nat) : (pinDigits n v).length = n := by
  induction n generalizing v with
  | zero => rfl
  | succ k ih => simp [pinDigits, ih]

lemma digit_char_is_digit : ∀ m : Nat, m < 10 → (Char.ofNat (48 + m)).isDigit = true := by
  decide

lemma pinDigits_all_digits (n v : Nat) :
    ∀ c ∈ pinDigits n v, c.isDigit = true := by
  induction n generalizing v with
  | zero => intro c hc; simp [pinDigits] at hc
  | succ k ih =>
    intro c hc
    simp only [pinDigits, List.mem_append, List.mem_singleton] at hc
    rcases hc with hc | hc
    · exact ih (v / 10) c hc
    · subst hc; exact digit_char_is_digit (v % 10) (Nat.mod_lt _ (by norm_num))

lemma generateRandomPin_length (rand n : Nat) :
    (GenerateRandomPin rand n).length = n := by
  simp [GenerateRandomPin, String.length, pinDigits_length]

lemma generateRandomPin_digits (rand n : Nat) :
    ∀ c ∈ (GenerateRandomPin rand n).data, c.isDigit = true := by
  simpa [GenerateRandomPin] using pinDigits_all_digits n rand

lemma enqueueCommand_ok_unfold (env : CommanderEnv) (st : CommanderState)
    (hostUUIDs : List String) (rawCommand : String) (userID : Option Nat)
    (fleetOwned : Bool) (cmd : MDMCommand)
    (h : env.decode rawCommand = Except.ok cmd)
    (he : env.enqueueResult hostUUIDs cmd = none) :
    EnqueueCommand env st hostUUIDs rawCommand userID fleetOwned =
      (match sendNotifications env
          { st with enqueued := st.enqueued ++
              hostUUIDs.map (fun h => ⟨h, cmd, userID, fleetOwned⟩) } hostUUIDs with
       | (some e, st2) => (some (GoError.ctxWrap "sending notifications" e), st2)
       | (none, st2) => (none, st2)) := by
  simp only [EnqueueCommand, h, he]

/-! ### Concrete environments used as witnesses and counterexamples -/

def baseEnv : CommanderEnv :=
  { decode := fun s => Except.ok ⟨"cmd-uuid-1", s⟩
    enqueueResult := fun _ _ => none
    lockEnqueueResult := fun _ _ _ => none
    wipeEnqueueResult := fun _ _ => none
    push := fun us => ⟨us.map (fun u => (u, none)), none⟩
    getProfileUserID := fun _ => Except.ok 0
    marshalEmbedded := fun _ _ => Except.ok "embedded-manifest-plist"
    randPin := 42 }

def decodeFailEnv : CommanderEnv :=
  { baseEnv with decode := fun _ => Except.error "invalid XML" }

def enqueueFailEnv : CommanderEnv :=
  { baseEnv with enqueueResult := fun _ _ => some "db down" }

def partialPushEnv : CommanderEnv :=
  { baseEnv with push := fun _ => ⟨[("h1", none), ("h2", some "boom"), ("h3", none)], none⟩ }

def pushOuterErrEnv : CommanderEnv :=
  { baseEnv with push := fun _ => ⟨[], some "bad gateway"⟩ }

/-! ### Claim theorems -/

/-- C5: `EnqueueCommand` first decodes the rendered command and fails fast
on malformed input with nothing persisted and no push attempted; if
persisting fails it returns that error without attempting any push; and
whenever persisting succeeds the push fan-out to all targets is always
attempted (never skipped), regardless of the push outcome. -/
theorem enqueueCommand_decode_persist_push_contract (env : CommanderEnv)
    (st : CommanderState) (hostUUIDs : List String) (rawCommand : String)
    (userID : Option Nat) (fleetOwned : Bool) :
    (∀ e, env.decode rawCommand = Except.error e →
      EnqueueCommand env st hostUUIDs rawCommand userID fleetOwned =
        (some (GoError.ctxWrap "decoding command" (GoError.msg e)), st)) ∧
    (∀ cmd e, env.decode rawCommand = Except.ok cmd →
      env.enqueueResult hostUUIDs cmd = some e →
      EnqueueCommand env st hostUUIDs rawCommand userID fleetOwned =
        (some (GoError.ctxWrap "enqueuing command" (GoError.msg e)), st)) ∧
    (∀ cmd, env.decode rawCommand = Except.ok cmd →
      env.enqueueResult hostUUIDs cmd = none →
      (EnqueueCommand env st hostUUIDs rawCommand userID fleetOwned).2.pushCalls =
        st.pushCalls ++ [hostUUIDs]) := by
  refine ⟨?_, ?_, ?_⟩
  · intro e h
    simp [EnqueueCommand, h]
  · intro cmd e h he
    simp [EnqueueCommand, h, he]
  · intro cmd h he
    have hp := sendNotifications_pushCalls env
      { st with enqueued := st.enqueued ++
          hostUUIDs.map (fun u => ⟨u, cmd, userID, fleetOwned⟩) } hostUUIDs
    rw [enqueueCommand_ok_unfold env st hostUUIDs rawCommand userID fleetOwned cmd h he]
    split <;> rename_i heq <;> rw [heq] at hp <;> exact hp

/-- C5 witness: on a concrete environment whose decode step rejects the
input, `EnqueueCommand` returns the decode error and leaves the state
(including the push-call log) untouched. -/
theorem enqueueCommand_decode_persist_push_contract_witness :
    EnqueueCommand decodeFailEnv CommanderState.empty ["h1"] "<bad>" none true =
      (some (GoError.ctxWrap "decoding command" (GoError.msg "invalid XML")),
        CommanderState.empty) :=
  (enqueueCommand_decode_persist_push_contract decodeFailEnv CommanderState.empty
    ["h1"] "<bad>" none true).1 "invalid XML" rfl

/-- C10: when `Push` itself returns a non-nil error, `sendNotifications`
(and hence `EnqueueCommand`) returns that error wrapped as an ordinary
error — not recognisable as an `APNSDeliveryError` — and the structured
delivery error is produced only when `Push` returns a nil error while one
or more per-identifier responses carry an error (in which case it is
exactly the `APNSDeliveryError` over the failed-UUID list). -/
theorem pushTransportError_is_ordinary (env : CommanderEnv) (st : CommanderState)
    (hostUUIDs : List String) :
    (∀ e, (env.push hostUUIDs).err = some e →
      (sendNotifications env st hostUUIDs).1 =
        some (GoError.ctxWrap "commander push" (GoError.msg e)) ∧
      asAPNSDeliveryError (GoError.ctxWrap "commander push" (GoError.msg e)) = none) ∧
    (∀ rawCommand userID fleetOwned cmd e, env.decode rawCommand = Except.ok cmd →
      env.enqueueResult hostUUIDs cmd = none → (env.push hostUUIDs).err = some e →
      (EnqueueCommand env st hostUUIDs rawCommand userID fleetOwned).1 =
        some (GoError.ctxWrap "sending notifications"
          (GoError.ctxWrap "commander push" (GoError.msg e)))) ∧
    (∀ err, (sendNotifications env st hostUUIDs).1 = some err →
      asAPNSDeliveryError err ≠ none →
      (env.push hostUUIDs).err = none ∧
      err = GoError.apnsDelivery (pushFailedUUIDs (env.push hostUUIDs)) none ∧
      pushFailedUUIDs (env.push hostUUIDs) ≠ []) := by
  refine ⟨?_, ?_, ?_⟩
  · intro e h
    exact ⟨sendNotifications_outer_err env st hostUUIDs e h, rfl⟩
  · intro rawCommand userID fleetOwned cmd e h he hp
    rw [enqueueCommand_ok_unfold env st hostUUIDs rawCommand userID fleetOwned cmd h he]
    have h1 := sendNotifications_outer_err env
      { st with enqueued := st.enqueued ++
          hostUUIDs.map (fun u => ⟨u, cmd, userID, fleetOwned⟩) } hostUUIDs e hp
    split <;> rename_i heq <;> rw [heq] at h1
    · simp only [Prod.fst] at h1
      injection h1 with h2
      rw [h2]
    · exact absurd h1 (by simp)
  · intro err herr hne
    cases h : (env.push hostUUIDs).err with
    | some e =>
      have h1 := sendNotifications_outer_err env st hostUUIDs e h
      rw [h1] at herr
      injection herr with h2
      rw [← h2] at hne
      exact absurd rfl hne
    | none =>
      by_cases hf : pushFailedUUIDs (env.push hostUUIDs) = []
      · have h1 := sendNotifications_all_ok env st hostUUIDs h hf
        rw [h1] at herr
        exact absurd herr (by simp)
      · have h1 := sendNotifications_partial env st hostUUIDs h hf
        rw [h1] at herr
        injection herr with h2
        exact ⟨rfl, h2.symm, hf⟩

/-- C10 witness: on a concrete environment whose pusher fails outright
with "bad gateway", `sendNotifications` returns the wrapped ordinary
error, which `asAPNSDeliveryError` does not recognise. -/
theorem pushTransportError_is_ordinary_witness :
    (sendNotifications pushOuterErrEnv CommanderState.empty ["h1"]).1 =
      some (GoError.ctxWrap "commander push" (GoError.msg "bad gateway")) ∧
    asAPNSDeliveryError
      (GoError.ctxWrap "commander push" (GoError.msg "bad gateway")) = none :=
  (pushTransportError_is_ordinary pushOuterErrEnv CommanderState.empty ["h1"]).1
    "bad gateway" rfl

/-- C1 counterexample: with three targets of which exactly "h2" fails with
transport cause "boom" (and a nil overall push error), the returned
delivery error lists exactly ["h2"] but its carried cause is `none` — it
does not carry the underlying transport cause, refuting the claim as
stated. -/
theorem apns_cause_not_carried_cex :
    (partialPushEnv.push ["h1", "h2", "h3"]).responses =
      [("h1", none), ("h2", some "boom"), ("h3", none)] ∧
    (∃ err, (EnqueueCommand partialPushEnv CommanderState.empty ["h1", "h2", "h3"]
        "raw-cmd" none true).1 = some err ∧
      asAPNSDeliveryError err = some (["h2"], none)) ∧
    ¬ (∃ err cause, (EnqueueCommand partialPushEnv CommanderState.empty
        ["h1", "h2", "h3"] "raw-cmd" none true).1 = some err ∧
      asAPNSDeliveryError err = some (["h2"], some cause)) := by
  refine ⟨rfl, ⟨_, rfl, rfl⟩, ?_⟩
  rintro ⟨err, cause, he, ha⟩
  have h0 : (EnqueueCommand partialPushEnv CommanderState.empty ["h1", "h2", "h3"]
      "raw-cmd" none true).1 =
      some (GoError.ctxWrap "sending notifications"
        (GoError.apnsDelivery ["h2"] none)) := rfl
  rw [h0] at he
  injection he with he2
  rw [← he2] at ha
  simp [asAPNSDeliveryError] at ha

/-- C1 (amended): if the persist step succeeds and the push fan-out's
overall error is nil but some per-identifier responses fail, the returned
error is recognisable as an `APNSDeliveryError` listing exactly the
identifiers whose push failed, with a nil carried cause (the outer push
error of this branch; the per-identifier transport causes are not
carried), and the already-persisted enqueue records remain in the state
untouched by the push outcome. -/
theorem enqueue_partial_push_delivery_error (env : CommanderEnv)
    (st : CommanderState) (hostUUIDs : List String) (rawCommand : String)
    (userID : Option Nat) (fleetOwned : Bool) (cmd : MDMCommand)
    (hdec : env.decode rawCommand = Except.ok cmd)
    (henq : env.enqueueResult hostUUIDs cmd = none)
    (hperr : (env.push hostUUIDs).err = none)
    (hfail : pushFailedUUIDs (env.push hostUUIDs) ≠ []) :
    (∃ err, (EnqueueCommand env st hostUUIDs rawCommand userID fleetOwned).1 =
        some err ∧
      asAPNSDeliveryError err =
        some (pushFailedUUIDs (env.push hostUUIDs), none)) ∧
    (EnqueueCommand env st hostUUIDs rawCommand userID fleetOwned).2.enqueued =
      st.enqueued ++ hostUUIDs.map (fun u => ⟨u, cmd, userID, fleetOwned⟩) := by
  rw [enqueueCommand_ok_unfold env st hostUUIDs rawCommand userID fleetOwned cmd hdec henq]
  have hsn1 := sendNotifications_partial env
    { st with enqueued := st.enqueued ++
        hostUUIDs.map (fun u => ⟨u, cmd, userID, fleetOwned⟩) } hostUUIDs hperr hfail
  have hsn2 := sendNotifications_enqueued env
    { st with enqueued := st.enqueued ++
        hostUUIDs.map (fun u => ⟨u, cmd, userID, fleetOwned⟩) } hostUUIDs
  split <;> rename_i heq <;> rw [heq] at hsn1 hsn2
  · simp only at hsn1 hsn2
    injection hsn1 with h2
    subst h2
    exact ⟨⟨_, rfl, rfl⟩, hsn2⟩
  · exact absurd hsn1 (by simp)

/-- C1 witness: the amended statement instantiated on the concrete
partial-push environment (three targets, "h2" failing). -/
theorem enqueue_partial_push_delivery_error_witness :
    (∃ err, (EnqueueCommand partialPushEnv CommanderState.empty ["h1", "h2", "h3"]
        "raw-cmd" none true).1 = some err ∧
      asAPNSDeliveryError err =
        some (pushFailedUUIDs (partialPushEnv.push ["h1", "h2", "h3"]), none)) ∧
    (EnqueueCommand partialPushEnv CommanderState.empty ["h1", "h2", "h3"]
        "raw-cmd" none true).2.enqueued =
      CommanderState.empty.enqueued ++
        (["h1", "h2", "h3"].map
          (fun u => ⟨u, ⟨"cmd-uuid-1", "raw-cmd"⟩, none, true⟩)) :=
  enqueue_partial_push_delivery_error partialPushEnv CommanderState.empty
    ["h1", "h2", "h3"] "raw-cmd" none true ⟨"cmd-uuid-1", "raw-cmd"⟩ rfl rfl rfl
    (by decide)

/-- C2: evaluation of the embedded-manifest variant of
InstallEnterpriseApplication at a concrete input.  The Go call is
`svc.EnqueueCommand(ctx, hostUUIDs, string(raw), nil, false)`, so the
persisted record has no user identifier and is not flagged system-owned:
neither side of the attribution invariant holds, contradicting both the
invariant and "always system-owned". -/
theorem embeddedManifest_attribution_violation :
    (InstallEnterpriseApplicationWithEmbeddedManifest baseEnv CommanderState.empty
        ["h1"] "uuid-9" "manifest-xml").2.enqueued =
      [⟨"h1", ⟨"cmd-uuid-1", "embedded-manifest-plist"⟩, none, false⟩] ∧
    ∀ r ∈ (InstallEnterpriseApplicationWithEmbeddedManifest baseEnv
        CommanderState.empty ["h1"] "uuid-9" "manifest-xml").2.enqueued,
      r.userID = none ∧ r.fleetOwned = false ∧ attributionExclusive r = false := by
  decide

/-! Runner environments for witnesses and counterexamples. -/

def runnerBaseEnv : RunnerEnv :=
  { query := fun _ => Except.ok ⟨⟨0, "OK"⟩, [[("count", "1")]]⟩
    getHostScript := fun eid =>
      Except.ok ⟨if eid = "exec-install" then 1 else 2, eid, "script-body"⟩
    getInstaller := fun _ dir => Except.ok (dir ++ "/installer")
    tempDir := "/tmp/fleet-install"
    writeFile := fun _ _ => none
    execCmd := fun _ => ("ok-output", 0, 1, none)
    saveResult := fun _ => none }

def instJob : OrbitSoftwareInstaller :=
  ⟨"SELECT 1 FROM apps", "exec-install", "exec-post", "sw-1"⟩

def launchFailEnv : RunnerEnv :=
  { runnerBaseEnv with
    execCmd := fun _ => ("", -1, 0, some "fork-exec: exec format error") }

def installerFetchFailEnv : RunnerEnv :=
  { runnerBaseEnv with getInstaller := fun _ _ => Except.error "download failed" }

def skipEnv : RunnerEnv :=
  { runnerBaseEnv with query := fun _ => Except.ok ⟨⟨0, "OK"⟩, []⟩ }

def nonzeroExitEnv : RunnerEnv :=
  { runnerBaseEnv with execCmd := fun _ => ("err-output", 3, 2, none) }

/-- C3: evaluation of the runner at an input where the execution strategy
fails to launch the process (`execCmdFn` returns a non-nil error).  In the
Go source that error is reassigned by the `SaveHostScriptResult` call
before being inspected, so no hard error is raised: the job returns nil,
both scripts are "executed", and results with exit code -1 are still
submitted — contradicting "hard error iff write/launch/report failure". -/
theorem launch_error_not_hard_error :
    launchFailEnv.execCmd "/tmp/fleet-install/installer/1" =
      ("", -1, 0, some "fork-exec: exec format error") ∧
    (InstallSoftware launchFailEnv instJob).1 = none ∧
    (InstallSoftware launchFailEnv instJob).2.execs =
      ["/tmp/fleet-install/installer/1", "/tmp/fleet-install/installer/2"] ∧
    (InstallSoftware launchFailEnv instJob).2.saved =
      [⟨"exec-install", "", 0, -1⟩, ⟨"exec-post", "", 0, -1⟩] := by
  decide

/-- C4 counterexample: when the installer-artifact fetch fails, the job
exits with a hard error but no directory removal has run — the deferred
`removeAll(tmpDir)` is registered only after `GetInstaller` succeeds, so
the cleanup is not unconditional over all exit paths. -/
theorem cleanup_missed_on_fetch_error_cex :
    (InstallSoftware installerFetchFailEnv instJob).1 =
      some (GoError.msg "download failed") ∧
    (InstallSoftware installerFetchFailEnv instJob).2.removed = [] := by
  decide

/-- C4 (amended): the removal of the job's working directory runs exactly
on the exit paths reached after the installer artifact has been fetched
successfully (success of the scripts or any later hard error); on the
earlier exits — precondition failure, skip, script-fetch failure,
installer-fetch failure — no removal is performed. -/
theorem installSoftware_cleanup_exactly_after_fetch (env : RunnerEnv)
    (installer : OrbitSoftwareInstaller) :
    (InstallSoftware env installer).2.removed =
      if installerFetched env installer then [env.tempDir] else [] := by
  unfold InstallSoftware installerFetched
  cases hq : preConditionCheck env installer.preInstallCondition with
  | error e => simp [RunnerTrace.empty]
  | ok b =>
    cases b with
    | false => simp [RunnerTrace.empty]
    | true =>
      simp only
      cases h1 : env.getHostScript installer.installScript with
      | error e => simp [RunnerTrace.empty]
      | ok s1 =>
        simp only
        cases h2 : env.getHostScript installer.postInstallScript with
        | error e => simp [RunnerTrace.empty]
        | ok s2 =>
          simp only
          cases h3 : env.getInstaller installer.softwareId env.tempDir with
          | error e => simp [RunnerTrace.empty]
          | ok ip =>
            simp only [if_true]
            split <;> rename_i heq
            · have hrm := runInstallerScript_removed env
                { RunnerTrace.empty with
                  scriptFetches := RunnerTrace.empty.scriptFetches ++
                    [installer.installScript] ++ [installer.postInstallScript],
                  installerFetches := RunnerTrace.empty.installerFetches ++
                    [(installer.softwareId, env.tempDir)] } s1 ip
              rw [heq] at hrm
              simp_all [RunnerTrace.empty]
            · rename_i tr2
              have hrm := runInstallerScript_removed env
                { RunnerTrace.empty with
                  scriptFetches := RunnerTrace.empty.scriptFetches ++
                    [installer.installScript] ++ [installer.postInstallScript],
                  installerFetches := RunnerTrace.empty.installerFetches ++
                    [(installer.softwareId, env.tempDir)] } s1 ip
              rw [heq] at hrm
              have hrm2 := runInstallerScript_removed env tr2 s2 ip
              simp_all [RunnerTrace.empty]

/-- C8: a precondition query that succeeds with status zero and an empty
result set ends the job with no error and an empty trace — nothing
fetched, no script written or executed, no result submitted, nothing
removed. -/
theorem precondition_empty_skip (env : RunnerEnv)
    (installer : OrbitSoftwareInstaller) (res : OsqueryResponse)
    (hq : env.query installer.preInstallCondition = Except.ok res)
    (hc : res.status.code = 0) (hr : res.response = []) :
    InstallSoftware env installer = (none, RunnerTrace.empty) := by
  have hpc : preConditionCheck env installer.preInstallCondition = Except.ok false := by
    unfold preConditionCheck
    rw [hq]
    simp [hc, hr]
  unfold InstallSoftware
  rw [hpc]

/-- C8 witness: the skip theorem instantiated on a concrete environment
whose precondition query returns zero rows with status 0. -/
theorem precondition_empty_skip_witness :
    InstallSoftware skipEnv instJob = (none, RunnerTrace.empty) :=
  precondition_empty_skip skipEnv instJob ⟨⟨0, "OK"⟩, []⟩ rfl rfl rfl

lemma runInstallerScript_ok_unfold (env : RunnerEnv) (tr : RunnerTrace)
    (script : HostScriptResult) (installerPath : String)
    (hw : env.writeFile (installerPath ++ "/" ++ toString script.id)
      script.scriptContents = none)
    (hs : env.saveResult ⟨script.executionID,
        (env.execCmd (installerPath ++ "/" ++ toString script.id)).1,
        (env.execCmd (installerPath ++ "/" ++ toString script.id)).2.2.1,
        (env.execCmd (installerPath ++ "/" ++ toString script.id)).2.1⟩ = none) :
    runInstallerScript env tr script installerPath =
      (none, { tr with
        writes := tr.writes ++
          [(installerPath ++ "/" ++ toString script.id, script.scriptContents)],
        execs := tr.execs ++ [installerPath ++ "/" ++ toString script.id],
        saved := tr.saved ++ [⟨script.executionID,
          (env.execCmd (installerPath ++ "/" ++ toString script.id)).1,
          (env.execCmd (installerPath ++ "/" ++ toString script.id)).2.2.1,
          (env.execCmd (installerPath ++ "/" ++ toString script.id)).2.1⟩] }) := by
  simp only [runInstallerScript, hw, hs]

lemma runInstallerScript_execs_of_write_ok (env : RunnerEnv) (tr : RunnerTrace)
    (script : HostScriptResult) (installerPath : String)
    (hw : env.writeFile (installerPath ++ "/" ++ toString script.id)
      script.scriptContents = none) :
    (runInstallerScript env tr script installerPath).2.execs =
      tr.execs ++ [installerPath ++ "/" ++ toString script.id] := by
  simp only [runInstallerScript, hw]
  split <;> rfl

lemma runInstallerScript_saved_of_write_ok (env : RunnerEnv) (tr : RunnerTrace)
    (script : HostScriptResult) (installerPath : String)
    (hw : env.writeFile (installerPath ++ "/" ++ toString script.id)
      script.scriptContents = none) :
    (runInstallerScript env tr script installerPath).2.saved =
      tr.saved ++ [⟨script.executionID,
        (env.execCmd (installerPath ++ "/" ++ toString script.id)).1,
        (env.execCmd (installerPath ++ "/" ++ toString script.id)).2.2.1,
        (env.execCmd (installerPath ++ "/" ++ toString script.id)).2.1⟩] := by
  simp only [runInstallerScript, hw]
  split <;> rfl

/-- C7: when the install script runs to completion with a nonzero exit
code and no write/launch/report error occurs, a `ScriptResult` carrying
that nonzero exit code is submitted and the post-install script is still
executed — a nonzero exit is result data, not a runner error. -/
theorem nonzero_exit_is_result_data (env : RunnerEnv)
    (installer : OrbitSoftwareInstaller) (res : OsqueryResponse)
    (s1 s2 : HostScriptResult) (ip out : String) (code : Int) (dur : Nat)
    (hq : env.query installer.preInstallCondition = Except.ok res)
    (hc : res.status.code = 0) (hr : res.response ≠ [])
    (h1 : env.getHostScript installer.installScript = Except.ok s1)
    (h2 : env.getHostScript installer.postInstallScript = Except.ok s2)
    (h3 : env.getInstaller installer.softwareId env.tempDir = Except.ok ip)
    (hw1 : env.writeFile (ip ++ "/" ++ toString s1.id) s1.scriptContents = none)
    (hw2 : env.writeFile (ip ++ "/" ++ toString s2.id) s2.scriptContents = none)
    (he : env.execCmd (ip ++ "/" ++ toString s1.id) = (out, code, dur, none))
    (hcode : code ≠ 0)
    (hs1 : env.saveResult ⟨s1.executionID, out, dur, code⟩ = none) :
    (⟨s1.executionID, out, dur, code⟩ : HostScriptResultPayload) ∈
      (InstallSoftware env installer).2.saved ∧
    (ip ++ "/" ++ toString s2.id) ∈ (InstallSoftware env installer).2.execs := by
  have hpc : preConditionCheck env installer.preInstallCondition = Except.ok true := by
    unfold preConditionCheck
    rw [hq]
    simp [hc, List.length_pos.mpr hr]
  have hs1' : env.saveResult ⟨s1.executionID,
      (env.execCmd (ip ++ "/" ++ toString s1.id)).1,
      (env.execCmd (ip ++ "/" ++ toString s1.id)).2.2.1,
      (env.execCmd (ip ++ "/" ++ toString s1.id)).2.1⟩ = none := by
    rw [he]
    exact hs1
  unfold InstallSoftware
  simp only [hpc, h1, h2, h3]
  rw [runInstallerScript_ok_unfold _ _ _ _ hw1 hs1']
  simp only
  rw [runInstallerScript_saved_of_write_ok _ _ _ _ hw2,
    runInstallerScript_execs_of_write_ok _ _ _ _ hw2]
  simp [he]

/-- C7 witness: on a concrete environment whose install script exits with
code 3, the result with exit code 3 is submitted and the post-install
script path is executed. -/
theorem nonzero_exit_is_result_data_witness :
    (⟨"exec-install", "err-output", 2, 3⟩ : HostScriptResultPayload) ∈
      (InstallSoftware nonzeroExitEnv instJob).2.saved ∧
    ("/tmp/fleet-install/installer" ++ "/" ++ toString (2 : Nat)) ∈
      (InstallSoftware nonzeroExitEnv instJob).2.execs :=
  nonzero_exit_is_result_data nonzeroExitEnv instJob ⟨⟨0, "OK"⟩, [[("count", "1")]]⟩
    ⟨1, "exec-install", "script-body"⟩ ⟨2, "exec-post", "script-body"⟩
    "/tmp/fleet-install/installer" "err-output" 3 2 rfl rfl (by decide) rfl rfl rfl
    rfl rfl rfl (by decide) rfl

/-- C6 counterexample: a concrete `EraseDevice` invocation generates the
6-digit secret "000042", yet the persisted wipe-enqueue record carries no
pin — `storage.EnqueueDeviceWipeCommand` is called with only the host and
the command, so the secret is not persisted with the enqueue call. -/
theorem eraseDevice_pin_not_persisted_cex :
    GenerateRandomPin baseEnv.randPin 6 = "000042" ∧
    (∃ r, (EraseDevice baseEnv CommanderState.empty "h1" "u1").2.deviceCmds = [r] ∧
      r.pin = none) := by
  exact ⟨rfl, ⟨_, rfl, rfl⟩⟩

/-- C6 (amended): every DeviceLock and EraseDevice invocation generates a
fresh 6-digit secret (exactly 6 characters, digits only); DeviceLock
persists that secret with the enqueue call, while EraseDevice embeds the
secret only in the rendered command payload — its enqueue call does not
receive the secret. -/
theorem lock_and_erase_secret_handling (env : CommanderEnv) (st : CommanderState)
    (hostUUID uuid : String) :
    ((GenerateRandomPin env.randPin 6).length = 6 ∧
      ∀ c ∈ (GenerateRandomPin env.randPin 6).data, c.isDigit = true) ∧
    (∀ cmd, env.decode (deviceLockRaw uuid (GenerateRandomPin env.randPin 6)) =
        Except.ok cmd →
      env.lockEnqueueResult hostUUID cmd (GenerateRandomPin env.randPin 6) = none →
      (DeviceLock env st hostUUID uuid).2.deviceCmds =
        st.deviceCmds ++ [⟨hostUUID, cmd, some (GenerateRandomPin env.randPin 6)⟩]) ∧
    (∀ cmd, env.decode (eraseDeviceRaw uuid (GenerateRandomPin env.randPin 6)) =
        Except.ok cmd →
      env.wipeEnqueueResult hostUUID cmd = none →
      (EraseDevice env st hostUUID uuid).2.deviceCmds =
        st.deviceCmds ++ [⟨hostUUID, cmd, none⟩]) := by
  refine ⟨⟨generateRandomPin_length env.randPin 6, generateRandomPin_digits env.randPin 6⟩,
    ?_, ?_⟩
  · intro cmd hdec hlock
    have hdc := sendNotifications_deviceCmds env
      { st with deviceCmds := st.deviceCmds ++
          [⟨hostUUID, cmd, some (GenerateRandomPin env.randPin 6)⟩] } [hostUUID]
    simp only [DeviceLock, hdec, hlock]
    split <;> rename_i heq <;> rw [heq] at hdc <;> exact hdc
  · intro cmd hdec hwipe
    have hdc := sendNotifications_deviceCmds env
      { st with deviceCmds := st.deviceCmds ++ [⟨hostUUID, cmd, none⟩] } [hostUUID]
    simp only [EraseDevice, hdec, hwipe]
    split <;> rename_i heq <;> rw [heq] at hdc <;> exact hdc

/-- C6 witness: the amended DeviceLock statement instantiated on the base
environment — the lock-enqueue record carries the generated secret. -/
theorem lock_and_erase_secret_handling_witness :
    (DeviceLock baseEnv CommanderState.empty "h1" "u1").2.deviceCmds =
      CommanderState.empty.deviceCmds ++
        [⟨"h1", ⟨"cmd-uuid-1", deviceLockRaw "u1" (GenerateRandomPin baseEnv.randPin 6)⟩,
          some (GenerateRandomPin baseEnv.randPin 6)⟩] :=
  (lock_and_erase_secret_handling baseEnv CommanderState.empty "h1" "u1").2.1
    ⟨"cmd-uuid-1", deviceLockRaw "u1" (GenerateRandomPin baseEnv.randPin 6)⟩ rfl rfl

/-- C9: `RunConfigReceivers` applies every registered receiver, in
registration order, to the same configuration value (even when earlier
receivers fail); it returns no error when all receivers succeed, and
otherwise an aggregate in which every individual receiver failure remains
testable for membership. -/
theorem runConfigReceivers_fanout {C E : Type}
    (receivers : List (ConfigReceiver C E)) (cfg : C) :
    (RunConfigReceivers receivers cfg).1 = receivers.map (fun r => r cfg) ∧
    ((∀ r ∈ receivers, r cfg = none) → (RunConfigReceivers receivers cfg).2 = none) ∧
    (∀ r ∈ receivers, ∀ e, r cfg = some e →
      ∃ l, (RunConfigReceivers receivers cfg).2 = some l ∧ e ∈ l) := by
  refine ⟨rfl, ?_, ?_⟩
  · intro hall
    have herrs : (receivers.map (fun r => r cfg)).filterMap id = [] := by
      rw [List.filterMap_eq_nil_iff]
      intro a ha
      rcases List.mem_map.mp ha with ⟨r, hr, rfl⟩
      exact hall r hr
    simp [RunConfigReceivers, herrs]
  · intro r hr e he
    have hmem : e ∈ (receivers.map (fun r => r cfg)).filterMap id :=
      List.mem_filterMap.mpr ⟨some e, List.mem_map.mpr ⟨r, hr, he⟩, rfl⟩
    have hne : ((receivers.map (fun r => r cfg)).filterMap id).isEmpty = false := by
      rw [List.isEmpty_eq_false_iff_exists_mem]
      exact ⟨e, hmem⟩
    refine ⟨(receivers.map (fun r => r cfg)).filterMap id, ?_, hmem⟩
    simp only [RunConfigReceivers, hne, Bool.false_eq_true, if_false]

/-- Receivers mirroring the shape of `TestConfigReceiverErrors`: a failing
receiver, a succeeding one, a second failing one, a second succeeding
one, registered in that order. -/
def demoReceivers : List (ConfigReceiver Nat String) :=
  [fun _ => some "error1", fun _ => none, fun _ => some "error2", fun _ => none]

/-- C9 witness: on the four test receivers, the aggregate error exists and
contains the first receiver's failure. -/
theorem runConfigReceivers_fanout_witness :
    ∃ l, (RunConfigReceivers demoReceivers 0).2 = some l ∧ "error1" ∈ l :=
  (runConfigReceivers_fanout demoReceivers 0).2.2 (fun _ => some "error1")
    (List.Mem.head _) "error1" rfl

end Fleet
